import Mathlib

/-!
Verification of `bin/fdc_lookup.py` (batch FDC foundation-food lookup).

The script reads a JSON array of product names from stdin, invokes the
external collaborator `parse_ingredient` once per entry inside a
per-item `try/except Exception`, shapes each returned record into a
five-field dictionary, and prints a JSON array of match lists.

Shallow embedding choices:
  * Python values decoded from JSON are modelled by the inductive `Json`
    (dicts as association lists, as produced by `json.loads`).
  * The external collaborator `parse_ingredient` is an oracle
    `Json → Except ε (ParsedIngredient V)`: `Except.error` models the call
    raising any `Exception`; the opaque field values carried by the
    returned records live in a type parameter `V`.
  * `json.loads` is likewise external (the Python standard library), so it
    is a parameter `String → Except Unit Json`; concrete fixtures used in
    witnesses mirror its documented behaviour on those exact texts.
  * A raised exception anywhere is `Except.error`; a non-zero process exit
    is `Except.error` of the whole run; the printed value is returned
    instead of serialised.
-/

namespace FdcLookup

/-- A decoded Python/JSON value, as produced by `json.loads`:
`null`, booleans, numbers, strings, lists, and dicts (association lists). -/
inductive Json where
  | null : Json
  | bool (b : Bool) : Json
  | num (n : Int) : Json
  | str (s : String) : Json
  | arr (elems : List Json) : Json
  | obj (entries : List (String × Json)) : Json
deriving Repr, BEq

/-- One foundation-food record as exposed by the collaborator's
`parsed.foundation_foods`: the five attributes the script reads.
Field values are opaque (type parameter `V`). -/
structure FoundationFood (V : Type) where
  fdc_id : V
  text : V
  category : V
  confidence : V
  data_type : V
deriving Repr, DecidableEq

/-- The object returned by `parse_ingredient`, of which the script only
uses the `foundation_foods` attribute. -/
structure ParsedIngredient (V : Type) where
  foundation_foods : List (FoundationFood V)
deriving Repr, DecidableEq

/-- The dictionary the script builds per record, with exactly the keys
`fdc_id`, `text`, `category`, `confidence`, `data_type`. -/
structure MatchOut (V : Type) where
  fdc_id : V
  text : V
  category : V
  confidence : V
  data_type : V
deriving Repr, DecidableEq

/-- The comprehension body: `{"fdc_id": ff.fdc_id, ..., "data_type": ff.data_type}`. -/
def toMatch {V : Type} (ff : FoundationFood V) : MatchOut V :=
  { fdc_id := ff.fdc_id, text := ff.text, category := ff.category,
    confidence := ff.confidence, data_type := ff.data_type }

/-- The emitted dictionary as an ordered key/value list, exactly as the
script writes it. -/
def matchFields {V : Type} (m : MatchOut V) : List (String × V) :=
  [("fdc_id", m.fdc_id), ("text", m.text), ("category", m.category),
   ("confidence", m.confidence), ("data_type", m.data_type)]

/-- The five field names, in emission order. -/
def matchFieldNames : List String :=
  ["fdc_id", "text", "category", "confidence", "data_type"]

/-- `lookup_foundation_foods(product_name)`: call the collaborator inside
`try`, map each returned record to its five-field dictionary; on any
raised `Exception` return `[]`. -/
def lookup_foundation_foods {ε V : Type} (parse : Json → Except ε (ParsedIngredient V))
    (product_name : Json) : List (MatchOut V) :=
  match parse product_name with
  | .ok parsed => parsed.foundation_foods.map toMatch
  | .error _ => []

/-- The characters Python `str.strip()` removes by default (ASCII
whitespace; the full Unicode whitespace set is irrelevant to the texts
considered here). -/
def isPyWs (c : Char) : Bool :=
  c = ' ' || c = '\t' || c = '\n' || c = '\r' || c = '\x0b' || c = '\x0c'

/-- Python `str.strip()` on the raw stdin text: drop leading and trailing
whitespace. -/
def pyStrip (s : String) : String :=
  ⟨((s.toList.dropWhile isPyWs).reverse.dropWhile isPyWs).reverse⟩

/-- Python iteration `for name in products` over a decoded JSON value:
lists yield their elements, strings yield their characters as one-character
strings, dicts yield their keys; `null`, booleans and numbers are not
iterable and raise `TypeError`. -/
def pyIter : Json → Except Unit (List Json)
  | .arr elems => .ok elems
  | .str s => .ok (s.toList.map fun c => Json.str (String.singleton c))
  | .obj entries => .ok (entries.map fun kv => Json.str kv.1)
  | .null => .error ()
  | .bool _ => .error ()
  | .num _ => .error ()

/-- The list comprehension
`[lookup_foundation_foods(name) for name in products]`. -/
def resolveBatch {ε V : Type} (parse : Json → Except ε (ParsedIngredient V))
    (items : List Json) : List (List (MatchOut V)) :=
  items.map (lookup_foundation_foods parse)

/-- `main()`: read stdin, strip; on empty text print `[]` and return;
otherwise `json.loads` (a raised decode error propagates, exiting
non-zero), iterate the decoded value (a `TypeError` likewise propagates),
and print the list of per-item results. `Except.error` is the non-zero
exit; `Except.ok` carries the printed value. -/
def mainRun {ε V : Type} (loads : String → Except Unit Json)
    (parse : Json → Except ε (ParsedIngredient V)) (stdin : String) :
    Except Unit (List (List (MatchOut V))) :=
  let raw := pyStrip stdin
  if raw = "" then .ok []
  else
    match loads raw with
    | .error _ => .error ()
    | .ok products =>
      match pyIter products with
      | .error _ => .error ()
      | .ok items => .ok (resolveBatch parse items)

/-- Instrumented `lookup_foundation_foods`: same result, and additionally
the list of arguments passed to `parse_ingredient` (here always the
singleton of the item, because the body calls the collaborator exactly
once, with no retry). -/
def lookupTraced {ε V : Type} (parse : Json → Except ε (ParsedIngredient V))
    (product_name : Json) : List (MatchOut V) × List Json :=
  (lookup_foundation_foods parse product_name, [product_name])

/-- Instrumented comprehension: results paired with the concatenated
collaborator-call trace, in evaluation order (Python evaluates the
comprehension left to right, sequentially). -/
def resolveBatchTraced {ε V : Type} (parse : Json → Except ε (ParsedIngredient V)) :
    List Json → List (List (MatchOut V)) × List Json
  | [] => ([], [])
  | name :: rest =>
    ((lookupTraced parse name).1 :: (resolveBatchTraced parse rest).1,
     (lookupTraced parse name).2 ++ (resolveBatchTraced parse rest).2)

/-- Instrumented `main()`: the run outcome paired with the trace of
collaborator calls made during the run. -/
def mainRunTraced {ε V : Type} (loads : String → Except Unit Json)
    (parse : Json → Except ε (ParsedIngredient V)) (stdin : String) :
    Except Unit (List (List (MatchOut V))) × List Json :=
  let raw := pyStrip stdin
  if raw = "" then (.ok [], [])
  else
    match loads raw with
    | .error _ => (.error (), [])
    | .ok products =>
      match pyIter products with
      | .error _ => (.error (), [])
      | .ok items =>
        ((Except.ok (resolveBatchTraced parse items).1 :
            Except Unit (List (List (MatchOut V)))),
         (resolveBatchTraced parse items).2)

/-- `Json.arr` whose elements are all strings: "a list of strings". -/
def isStringArray : Json → Bool
  | .arr elems => elems.all fun e => match e with | .str _ => true | _ => false
  | _ => false

/-- Concrete stand-in for `json.loads` on the exact fixture texts used in
the witnesses below, each mapped to the value Python's `json.loads`
returns for it; every other text is a decode error. -/
def loadsDemo : String → Except Unit Json
  | "[]" => .ok (Json.arr [])
  | "[\"flour\", \"butter\"]" => .ok (Json.arr [Json.str "flour", Json.str "butter"])
  | "\"ab\"" => .ok (Json.str "ab")
  | "\x7b\"a\": 1, \"b\": 2\x7d" => .ok (Json.obj [("a", Json.num 1), ("b", Json.num 2)])
  | "5" => .ok (Json.num 5)
  | _ => .error ()

/-- A collaborator stub that raises on every call. -/
def parseFailAll : Json → Except Unit (ParsedIngredient Unit) :=
  fun _ => .error ()

/-- A collaborator stub that succeeds on every call with one record. -/
def parseOkOne : Json → Except Unit (ParsedIngredient Unit) :=
  fun _ => .ok ⟨[⟨(), (), (), (), ()⟩]⟩

theorem resolveBatchTraced_eq {ε V : Type} (parse : Json → Except ε (ParsedIngredient V))
    (items : List Json) :
    resolveBatchTraced parse items = (resolveBatch parse items, items) := by
  induction items with
  | nil => rfl
  | cons name rest ih =>
    simp [resolveBatchTraced, resolveBatch, lookupTraced, ih, List.map_cons]

theorem mainRunTraced_fst {ε V : Type} (loads : String → Except Unit Json)
    (parse : Json → Except ε (ParsedIngredient V)) (stdin : String) :
    (mainRunTraced loads parse stdin).1 = mainRun loads parse stdin := by
  by_cases hraw : pyStrip stdin = ""
  · simp [mainRun, mainRunTraced, hraw]
  · rcases hld : loads (pyStrip stdin) with u | v
    · simp [mainRun, mainRunTraced, hraw, hld]
    · rcases hit : pyIter v with u | items
      · simp [mainRun, mainRunTraced, hraw, hld, hit]
      · simp [mainRun, mainRunTraced, hraw, hld, hit, resolveBatchTraced_eq]

/-- Claim C2 — length invariant: for every input whose stripped text is
non-empty and decodes to a list of N elements, the run succeeds and the
emitted list has length exactly N; no position is dropped, merged or
added, whatever the per-item lookups do. -/
theorem length_invariant {ε V : Type} (loads : String → Except Unit Json)
    (parse : Json → Except ε (ParsedIngredient V)) (stdin : String) (items : List Json)
    (hne : pyStrip stdin ≠ "")
    (hdec : loads (pyStrip stdin) = Except.ok (Json.arr items)) :
    mainRun loads parse stdin = Except.ok (resolveBatch parse items) ∧
    (resolveBatch parse items).length = items.length := by
  constructor
  · unfold mainRun
    simp [hne, hdec, pyIter]
  · simp [resolveBatch]

theorem length_invariant_witness :
    mainRun loadsDemo parseOkOne "[\"flour\", \"butter\"]" =
      Except.ok (resolveBatch parseOkOne [Json.str "flour", Json.str "butter"]) ∧
    (resolveBatch parseOkOne [Json.str "flour", Json.str "butter"]).length =
      ([Json.str "flour", Json.str "butter"] : List Json).length :=
  length_invariant loadsDemo parseOkOne "[\"flour\", \"butter\"]"
    [Json.str "flour", Json.str "butter"] (by decide) (by rfl)

/-- Claim C4 — order preservation: the output at index i is exactly the
lookup result for the input at index i, and running the batch on a
permuted input yields the identically permuted outputs. -/
theorem order_preservation {ε V : Type} (parse : Json → Except ε (ParsedIngredient V))
    (items : List Json) (i : Nat) {n : Nat} (f : Fin n → Json) (σ : Equiv.Perm (Fin n)) :
    (resolveBatch parse items)[i]? = (items[i]?).map (lookup_foundation_foods parse) ∧
    resolveBatch parse (List.ofFn fun j => f (σ j)) =
      (List.ofFn fun j => lookup_foundation_foods parse (f (σ j))) ∧
    resolveBatch parse (List.ofFn f) =
      (List.ofFn fun j => lookup_foundation_foods parse (f j)) := by
  refine ⟨?_, ?_, ?_⟩
  · simp [resolveBatch, List.getElem?_map]
  · simp [resolveBatch, List.map_ofFn, Function.comp_def]
  · simp [resolveBatch, List.map_ofFn, Function.comp_def]

/-- Claim C5 — empty input: if the stripped stdin text is empty, or the
decoded value is the empty list, the run succeeds with the empty output
list and the collaborator is never called (empty call trace). -/
theorem empty_input {ε V : Type} (loads : String → Except Unit Json)
    (parse : Json → Except ε (ParsedIngredient V)) (stdin : String) :
    (pyStrip stdin = "" → mainRunTraced loads parse stdin = (Except.ok [], [])) ∧
    (loads (pyStrip stdin) = Except.ok (Json.arr []) →
      mainRunTraced loads parse stdin = (Except.ok [], [])) := by
  constructor
  · intro h
    unfold mainRunTraced
    simp [h]
  · intro h
    unfold mainRunTraced
    by_cases hraw : pyStrip stdin = ""
    · simp [hraw]
    · simp [hraw, h, pyIter, resolveBatchTraced]

theorem empty_input_witness :
    mainRunTraced loadsDemo parseOkOne " \n " = (Except.ok [], []) ∧
    mainRunTraced loadsDemo parseOkOne "[]" = (Except.ok [], []) :=
  ⟨(empty_input loadsDemo parseOkOne " \n ").1 (by decide),
   (empty_input loadsDemo parseOkOne "[]").2 (by rfl)⟩

/-- Claim C10 — totality of the per-item lookup: for every input value
(any decoded JSON value, strings or not) and every collaborator outcome,
`lookup_foundation_foods` returns a list and never propagates an error:
a raised exception yields `[]`, a successful parse yields the mapped
records. -/
theorem lookup_total {ε V : Type} (parse : Json → Except ε (ParsedIngredient V))
    (name : Json) :
    (∀ e, parse name = Except.error e → lookup_foundation_foods parse name = []) ∧
    (∀ parsed, parse name = Except.ok parsed →
      lookup_foundation_foods parse name = parsed.foundation_foods.map toMatch) := by
  constructor
  · intro e h
    simp [lookup_foundation_foods, h]
  · intro parsed h
    simp [lookup_foundation_foods, h]

theorem lookup_total_witness :
    lookup_foundation_foods parseFailAll (Json.num 5) = [] ∧
    lookup_foundation_foods parseOkOne Json.null = [⟨(), (), (), (), ()⟩] :=
  ⟨(lookup_total parseFailAll (Json.num 5)).1 () rfl,
   (lookup_total parseOkOne Json.null).2 ⟨[⟨(), (), (), (), ()⟩]⟩ rfl⟩

/-- A collaborator stub that raises exactly on the product name
`"flour"` and succeeds with one record on every other value. -/
def parseFailFlour : Json → Except Unit (ParsedIngredient Unit) :=
  fun x => match x with
  | .str "flour" => .error ()
  | _ => .ok ⟨[⟨(), (), (), (), ()⟩]⟩

/-- A collaborator stub over numeric field values, returning two records
whose confidences are in ascending (not descending) order. -/
def parseTwoAsc : Json → Except Unit (ParsedIngredient Nat) :=
  fun _ => .ok ⟨[⟨1, 2, 3, 4, 5⟩, ⟨6, 7, 8, 9, 10⟩]⟩

/-- Claim C1 — per-item failure isolation: if the collaborator raises for
the item at index k and behaves at every other index exactly as an
undisturbed collaborator `good` would, then output position k is `[]`,
every other output position is exactly what the undisturbed run
produces, and the batch still emits a full-length result. -/
theorem failure_isolation {ε V : Type} (parse good : Json → Except ε (ParsedIngredient V))
    (items : List Json) (k : Nat) (itemK : Json) (e : ε)
    (hk : items[k]? = some itemK)
    (hfail : parse itemK = Except.error e)
    (hagree : ∀ j, j ≠ k → ∀ itemJ, items[j]? = some itemJ → parse itemJ = good itemJ) :
    (resolveBatch parse items)[k]? = some [] ∧
    (∀ j, j ≠ k → (resolveBatch parse items)[j]? = (resolveBatch good items)[j]?) ∧
    (resolveBatch parse items).length = items.length := by
  refine ⟨?_, ?_, by simp [resolveBatch]⟩
  · simp [resolveBatch, List.getElem?_map, hk, lookup_foundation_foods, hfail]
  · intro j hj
    simp only [resolveBatch, List.getElem?_map]
    rcases hjv : items[j]? with _ | itemJ
    · rfl
    · simp [lookup_foundation_foods, hagree j hj itemJ hjv]

theorem failure_isolation_witness :
    (resolveBatch parseFailFlour [Json.str "flour", Json.str "butter"])[0]? = some [] ∧
    (resolveBatch parseFailFlour [Json.str "flour", Json.str "butter"])[1]? =
      (resolveBatch parseOkOne [Json.str "flour", Json.str "butter"])[1]? ∧
    (resolveBatch parseFailFlour [Json.str "flour", Json.str "butter"]).length =
      ([Json.str "flour", Json.str "butter"] : List Json).length := by
  have h := failure_isolation parseFailFlour parseOkOne
    [Json.str "flour", Json.str "butter"] 0 (Json.str "flour") () rfl rfl
    (by
      intro j hj itemJ hjv
      match j with
      | 0 => exact absurd rfl hj
      | 1 =>
        simp only [List.getElem?_cons_succ, List.getElem?_cons_zero, Option.some.injEq] at hjv
        subst hjv
        rfl
      | n + 2 => simp at hjv)
  exact ⟨h.1, h.2.1 1 (by decide), h.2.2⟩

/-- Claim C6 — field completeness: on a successful parse the emitted list
is exactly the collaborator's records mapped through the five-field
constructor, each emitted dictionary lists the five key/value pairs
built from the record, and every emitted dictionary's key set is exactly
`fdc_id`, `text`, `category`, `confidence`, `data_type`. -/
theorem field_completeness {ε V : Type} (parse : Json → Except ε (ParsedIngredient V))
    (name : Json) (parsed : ParsedIngredient V)
    (h : parse name = Except.ok parsed) :
    lookup_foundation_foods parse name = parsed.foundation_foods.map toMatch ∧
    (∀ ff : FoundationFood V, matchFields (toMatch ff) =
      [("fdc_id", ff.fdc_id), ("text", ff.text), ("category", ff.category),
       ("confidence", ff.confidence), ("data_type", ff.data_type)]) ∧
    ∀ m ∈ lookup_foundation_foods parse name,
      (matchFields m).map Prod.fst = matchFieldNames := by
  refine ⟨by simp [lookup_foundation_foods, h], fun ff => rfl, ?_⟩
  intro m _
  rfl

theorem field_completeness_witness :
    lookup_foundation_foods parseTwoAsc (Json.str "flour") =
      [⟨1, 2, 3, 4, 5⟩, ⟨6, 7, 8, 9, 10⟩] ∧
    matchFields (⟨1, 2, 3, 4, 5⟩ : MatchOut Nat) =
      [("fdc_id", 1), ("text", 2), ("category", 3), ("confidence", 4), ("data_type", 5)] := by
  have h := field_completeness parseTwoAsc (Json.str "flour") ⟨[⟨1, 2, 3, 4, 5⟩, ⟨6, 7, 8, 9, 10⟩]⟩ rfl
  exact ⟨h.1, h.2.1 ⟨1, 2, 3, 4, 5⟩⟩

/-- Claim C7 — no re-sorting or normalization: on a successful parse the
emitted match list is the collaborator's record list mapped in place
(same order, element for element), and the sequence of confidence values
is passed through unmodified. -/
theorem no_resorting {ε V : Type} (parse : Json → Except ε (ParsedIngredient V))
    (name : Json) (parsed : ParsedIngredient V)
    (h : parse name = Except.ok parsed) :
    lookup_foundation_foods parse name = parsed.foundation_foods.map toMatch ∧
    (lookup_foundation_foods parse name).map (fun m => m.confidence) =
      parsed.foundation_foods.map (fun ff => ff.confidence) := by
  constructor
  · simp [lookup_foundation_foods, h]
  · simp [lookup_foundation_foods, h, List.map_map, Function.comp_def, toMatch]

theorem no_resorting_witness :
    lookup_foundation_foods parseTwoAsc (Json.str "butter") =
      [⟨1, 2, 3, 4, 5⟩, ⟨6, 7, 8, 9, 10⟩] ∧
    (lookup_foundation_foods parseTwoAsc (Json.str "butter")).map (fun m => m.confidence) =
      [4, 9] :=
  ⟨(no_resorting parseTwoAsc (Json.str "butter") ⟨[⟨1, 2, 3, 4, 5⟩, ⟨6, 7, 8, 9, 10⟩]⟩ rfl).1,
   (no_resorting parseTwoAsc (Json.str "butter") ⟨[⟨1, 2, 3, 4, 5⟩, ⟨6, 7, 8, 9, 10⟩]⟩ rfl).2⟩

/-- Claim C8 — exactly one collaborator call per item, in input order,
with no retry: the instrumented batch calls the collaborator on exactly
the input items, once each, in order (even when calls fail), its results
agree with the plain batch, and a failed item's result is recorded as
the empty list while processing continues. -/
theorem one_call_per_item {ε V : Type} (parse : Json → Except ε (ParsedIngredient V))
    (items : List Json) :
    (resolveBatchTraced parse items).2 = items ∧
    (resolveBatchTraced parse items).1 = resolveBatch parse items ∧
    ∀ (k : Nat) (itemK : Json) (e : ε), items[k]? = some itemK →
      parse itemK = Except.error e → (resolveBatch parse items)[k]? = some [] := by
  refine ⟨by simp [resolveBatchTraced_eq], by simp [resolveBatchTraced_eq], ?_⟩
  intro k itemK e hk hfail
  simp [resolveBatch, List.getElem?_map, hk, lookup_foundation_foods, hfail]

theorem one_call_per_item_witness :
    (resolveBatchTraced parseFailFlour [Json.str "flour", Json.str "butter"]).2 =
      [Json.str "flour", Json.str "butter"] ∧
    (resolveBatchTraced parseFailFlour [Json.str "flour", Json.str "butter"]).1 =
      resolveBatch parseFailFlour [Json.str "flour", Json.str "butter"] ∧
    (resolveBatch parseFailFlour [Json.str "flour", Json.str "butter"])[0]? = some [] := by
  have h := one_call_per_item parseFailFlour [Json.str "flour", Json.str "butter"]
  exact ⟨h.1, h.2.1, h.2.2 0 (Json.str "flour") () rfl rfl⟩

/-- Claim C3, counterexample: the stated "failure iff the input cannot be
decoded as a list of strings" is false. The input text `"ab"` (a JSON
string, hence not a list of strings, as `isStringArray` records) decodes
successfully, is iterated character-wise, and the run succeeds with a
two-element output — even though every collaborator call raises. -/
theorem fatal_iff_list_of_strings_refuted :
    pyStrip "\"ab\"" = "\"ab\"" ∧
    loadsDemo "\"ab\"" = Except.ok (Json.str "ab") ∧
    isStringArray (Json.str "ab") = false ∧
    mainRun loadsDemo parseFailAll "\"ab\"" = Except.ok [[], []] := by
  refine ⟨by decide, rfl, rfl, by rfl⟩

/-- Claim C3 (amended) — fatal failure iff undecodable or non-iterable:
the run fails exactly when the stripped input is non-empty and either
decoding raises or the decoded value is not iterable (`null`, boolean or
number); a list, string or object value always yields a successful run.
Moreover a failing run makes no collaborator call and emits no output
(error outcome with empty call trace), for every collaborator. -/
theorem fatal_iff_undecodable {ε V : Type} (loads : String → Except Unit Json)
    (parse : Json → Except ε (ParsedIngredient V)) (stdin : String) :
    (mainRun loads parse stdin = Except.error () ↔
      pyStrip stdin ≠ "" ∧
        (loads (pyStrip stdin) = Except.error () ∨
          ∃ v, loads (pyStrip stdin) = Except.ok v ∧ pyIter v = Except.error ())) ∧
    (mainRun loads parse stdin = Except.error () →
      mainRunTraced loads parse stdin = (Except.error (), [])) := by
  by_cases hraw : pyStrip stdin = ""
  · refine ⟨?_, ?_⟩ <;> simp [mainRun, hraw]
  · rcases hld : loads (pyStrip stdin) with u | v
    · cases u
      refine ⟨?_, fun _ => ?_⟩
      · simp [mainRun, hraw, hld]
      · simp [mainRunTraced, hraw, hld]
    · rcases hit : pyIter v with u | items
      · cases u
        refine ⟨?_, fun _ => ?_⟩
        · simp [mainRun, hraw, hld, hit]
        · simp [mainRunTraced, hraw, hld, hit]
      · refine ⟨?_, fun hcontra => ?_⟩
        · simp [mainRun, hraw, hld, hit]
        · simp [mainRun, hraw, hld, hit] at hcontra

theorem fatal_iff_undecodable_witness :
    mainRun loadsDemo parseOkOne "5" = Except.error () ∧
    mainRunTraced loadsDemo parseOkOne "5" = (Except.error (), []) := by
  have h := fatal_iff_undecodable loadsDemo parseOkOne "5"
  have h1 : mainRun loadsDemo parseOkOne "5" = Except.error () :=
    h.1.mpr ⟨by decide, Or.inr ⟨Json.num 5, rfl, rfl⟩⟩
  exact ⟨h1, h.2 h1⟩

/-- Claim C9 — iterable non-list values accepted: a non-empty input that
decodes to a JSON string is iterated character-wise (one lookup per
character, output length = string length), and one that decodes to an
object is iterated over its keys (one lookup per key, output length =
number of entries); neither is rejected before the lookups. -/
theorem iterable_nonlist_accepted {ε V : Type} (loads : String → Except Unit Json)
    (parse : Json → Except ε (ParsedIngredient V)) (stdin : String) (s : String)
    (entries : List (String × Json)) (hne : pyStrip stdin ≠ "") :
    (loads (pyStrip stdin) = Except.ok (Json.str s) →
      mainRun loads parse stdin =
        Except.ok (resolveBatch parse (s.toList.map fun c => Json.str (String.singleton c))) ∧
      (resolveBatch parse (s.toList.map fun c => Json.str (String.singleton c))).length =
        s.length) ∧
    (loads (pyStrip stdin) = Except.ok (Json.obj entries) →
      mainRun loads parse stdin =
        Except.ok (resolveBatch parse (entries.map fun kv => Json.str kv.1)) ∧
      (resolveBatch parse (entries.map fun kv => Json.str kv.1)).length = entries.length) := by
  constructor
  · intro h
    refine ⟨by simp [mainRun, hne, h, pyIter], ?_⟩
    simp only [resolveBatch, List.length_map]
    rfl
  · intro h
    refine ⟨by simp [mainRun, hne, h, pyIter], ?_⟩
    simp only [resolveBatch, List.length_map]

theorem iterable_nonlist_accepted_witness :
    (mainRun loadsDemo parseOkOne "\"ab\"" =
      Except.ok (resolveBatch parseOkOne
        (("ab").toList.map fun c => Json.str (String.singleton c)))) ∧
    (mainRun loadsDemo parseOkOne "\x7b\"a\": 1, \"b\": 2\x7d" =
      Except.ok (resolveBatch parseOkOne
        ([("a", Json.num 1), ("b", Json.num 2)].map fun kv => Json.str kv.1))) := by
  have h1 := iterable_nonlist_accepted loadsDemo parseOkOne "\"ab\"" "ab" [] (by decide)
  have h2 := iterable_nonlist_accepted loadsDemo parseOkOne "\x7b\"a\": 1, \"b\": 2\x7d" ""
    [("a", Json.num 1), ("b", Json.num 2)] (by decide)
  exact ⟨(h1.1 rfl).1, (h2.2 rfl).1⟩

end FdcLookup
